import Mathlib

/-!
Verification of the proxy CONNECT negotiator (`src/proxy.rs`).

The development is a shallow embedding of `Proxy::connect` and its helpers.
Byte buffers are `List Nat`; network effects are made explicit through an
`Env` (does the TCP connect / write / read succeed, and which bytes the
single `read` call places into the 1024-byte buffer) and a `Trace` (was a
transport connection opened, and which request bytes were written).
The response parser models the `httparse` crate's `Response::parse`
(status line plus headers, 32-header bound), which is the collaborator the
code uses on the read buffer.  Rust panics (`unwrap`, `unimplemented!`)
are modelled as an explicit `Outcome.panic` constructor.
-/

namespace WsProxy

/-- Bytes of an ASCII/UTF-8 string literal, used to build concrete buffers. -/
def strBytes (s : String) : List Nat :=
  s.toList.map Char.toNat

/-- Header-name bytes back to a string (header names are ASCII tokens). -/
def asciiStr (bs : List Nat) : String :=
  String.mk (bs.map Char.ofNat)

/-- Whether a byte is a UTF-8 continuation byte (10xxxxxx). -/
def isCont (b : Nat) : Bool :=
  128 ≤ b && b < 192

/-- UTF-8 decoder, mirroring the validation done by Rust's
`String::from_utf8` (RFC 3629: overlong forms, surrogates and values above
U+10FFFF are rejected). -/
def utf8DecodeChars : List Nat → Option (List Char)
  | [] => some []
  | b :: rest =>
    if b < 128 then
      (utf8DecodeChars rest).map (fun cs => Char.ofNat b :: cs)
    else if b < 194 then
      Option.none
    else if b < 224 then
      match rest with
      | c1 :: r =>
        if isCont c1 = true then
          (utf8DecodeChars r).map (fun cs => Char.ofNat ((b - 192) * 64 + (c1 - 128)) :: cs)
        else Option.none
      | [] => Option.none
    else if b < 240 then
      match rest with
      | c1 :: c2 :: r =>
        if isCont c1 = true ∧ isCont c2 = true ∧ (b = 224 → 160 ≤ c1) ∧ (b = 237 → c1 < 160) then
          (utf8DecodeChars r).map
            (fun cs => Char.ofNat ((b - 224) * 4096 + (c1 - 128) * 64 + (c2 - 128)) :: cs)
        else Option.none
      | _ => Option.none
    else if b < 245 then
      match rest with
      | c1 :: c2 :: c3 :: r =>
        if isCont c1 = true ∧ isCont c2 = true ∧ isCont c3 = true ∧
            (b = 240 → 144 ≤ c1) ∧ (b = 244 → c1 < 144) then
          (utf8DecodeChars r).map
            (fun cs =>
              Char.ofNat ((b - 240) * 262144 + (c1 - 128) * 4096 + (c2 - 128) * 64 + (c3 - 128)) :: cs)
        else Option.none
      | _ => Option.none
    else Option.none

/-- UTF-8 decoding of a byte list to a string, `Option.none` on invalid input
(the model of `String::from_utf8` returning `Err`). -/
def utf8Decode (bs : List Nat) : Option String :=
  (utf8DecodeChars bs).map String.mk

/-- UTF-8 encoding of a character (model of Rust `str::as_bytes` per char). -/
def charUtf8 (c : Char) : List Nat :=
  let n := c.toNat
  if n < 128 then [n]
  else if n < 2048 then [192 + n / 64, 128 + n % 64]
  else if n < 65536 then [224 + n / 4096, 128 + (n / 64) % 64, 128 + n % 64]
  else [240 + n / 262144, 128 + (n / 4096) % 64, 128 + (n / 64) % 64, 128 + n % 64]

/-- UTF-8 encoding of a string (model of Rust `str::as_bytes`). -/
def utf8Encode (s : String) : List Nat :=
  (s.toList.map charUtf8).flatten

/-- Prefix test on lists, used for the case-insensitive scheme match and the
version check of the parser. -/
def isPrefList [BEq α] : List α → List α → Bool
  | [], _ => true
  | _ :: _, [] => false
  | a :: as, b :: bs => a == b && isPrefList as bs

/-- Substring test on character lists (used to state that a request carries
no authorization header). -/
def containsSub : List Char → List Char → Bool
  | [], needle => needle.isEmpty
  | h :: t, needle => isPrefList needle (h :: t) || containsSub t needle

/-- ASCII lowercasing of a string: the embedding of `str::to_lowercase` as
used on scheme names (all relevant inputs are ASCII). -/
def lowerStr (s : String) : String :=
  String.mk (s.toList.map Char.toLower)

/-- The embedding of `str::starts_with`. -/
def starts_with (s pre : String) : Bool :=
  isPrefList pre.toList s.toList

/-- Modelled from the spec: `crate::handshake::encode_base64` is not under
`src/`; per the spec it is the standard (RFC 4648) base64 encoding with the
standard alphabet and `=` padding. -/
def base64Alphabet : List Char :=
  "ABCDEFGHIJKLMNOPQRSTUVWXYZabcdefghijklmnopqrstuvwxyz0123456789+/".toList

/-- Character of the standard base64 alphabet at a 6-bit index. -/
def b64Char (n : Nat) : Char :=
  base64Alphabet.getD n 'A'

/-- Modelled from the spec: standard base64 encoding of a byte sequence,
three input bytes to four alphabet characters, `=`-padded. -/
def encode_base64 : List Nat → String
  | [] => ""
  | [a] => String.mk [b64Char (a / 4), b64Char ((a % 4) * 16), '=', '=']
  | [a, b] => String.mk [b64Char (a / 4), b64Char ((a % 4) * 16 + b / 16), b64Char ((b % 16) * 4), '=']
  | a :: b :: c :: rest =>
    String.mk [b64Char (a / 4), b64Char ((a % 4) * 16 + b / 16),
      b64Char ((b % 16) * 4 + c / 64), b64Char (c % 64)] ++ encode_base64 rest

/-- The `AuthType` enum of `src/proxy.rs` (spec name: AuthScheme; the
`Unknown` variant is the spec's `Unsupported`). -/
inductive AuthType
  | none
  | basic
  | digest
  | unknown (s : String)
deriving DecidableEq

/-- The `From<&str> for AuthType` impl of `src/proxy.rs`: lowercase the text,
then a prefix match on "basic" and "digest"; anything else is kept verbatim
as `unknown`. -/
def from_str (s : String) : AuthType :=
  let lower := lowerStr s
  if starts_with lower "basic" then AuthType.basic
  else if starts_with lower "digest" then AuthType.digest
  else AuthType.unknown s

/-- `AuthType::get_credential` of `src/proxy.rs`.  The `Digest` arm is
`unimplemented!()` in the source, modelled as `Option.none` (a panic at the
call site). -/
def get_credential : AuthType → String → Option String
  | AuthType.none, a => some a
  | AuthType.basic, a => some (encode_base64 (utf8Encode a))
  | AuthType.digest, _ => Option.none
  | AuthType.unknown _, a => some a

/-- The observable accessors of the `url::Url` collaborator that
`Proxy::connect` uses: `host_str()`, `port_or_known_default()`,
`username()`, `password()`, `has_authority()`. -/
structure Url where
  host_str : Option String
  port_or_known_default : Option Nat
  username : String
  password : Option String
  has_authority : Bool
deriving DecidableEq

/-- The `Proxy` struct of `src/proxy.rs`. -/
structure Proxy where
  url : Url
  auth_type : AuthType
deriving DecidableEq

/-- `Proxy::has_auth`. -/
def has_auth (p : Proxy) : Bool :=
  p.url.has_authority && p.url.password.isSome

/-- `Proxy::get_auth`; the Rust source unwraps the password, so the result is
`Option.none` exactly when that unwrap would panic. -/
def get_auth (p : Proxy) : Option String :=
  p.url.password.map (fun pw => p.url.username ++ ":" ++ pw)

/-- A parsed response header: name (an ASCII token string, as `httparse`
exposes `&str` names) and raw value bytes. -/
structure Header where
  name : String
  value : List Nat
deriving DecidableEq

/-- The error cases of `httparse::Error` relevant to response parsing. -/
inductive HttparseError
  | headerName
  | headerValue
  | newLine
  | status
  | tooManyHeaders
  | version
deriving DecidableEq

/-- Intermediate parser step: hard error, ran out of buffer (Partial), or
done with a value and the remaining bytes. -/
inductive PStep (α : Type)
  | err (e : HttparseError)
  | part
  | done (a : α) (rest : List Nat)
deriving DecidableEq

/-- Result of a header block parse: error, partial (with the headers fully
parsed so far — exactly the entries `httparse` has filled in, the rest of
the 32-slot array staying empty), or complete. -/
inductive HStep
  | err (e : HttparseError)
  | part (hs : List Header)
  | done (hs : List Header) (rest : List Nat)
deriving DecidableEq

/-- Result of `httparse::Response::parse` as observed by `Proxy::connect`:
a hard error (surfaced through `?`), or Ok with the `code` and `headers`
fields as filled in (on `Partial`, `code` is set only if the three status
digits were reached, and only completely parsed headers are populated —
empty slots have an empty name and are invisible to the 407 filter). -/
inductive ParseOut
  | error (e : HttparseError)
  | incomplete (code : Option Nat) (headers : List Header)
  | complete (code : Option Nat) (headers : List Header)
deriving DecidableEq

/-- `httparse` skip_empty_lines: leading CRLF / LF pairs before the status
line are skipped; a CR not followed by LF is a NewLine error; running out of
buffer is Partial. -/
def skip_empty_lines : List Nat → PStep Unit
  | [] => PStep.part
  | 13 :: rest =>
    match rest with
    | 10 :: r => skip_empty_lines r
    | [] => PStep.part
    | _ => PStep.err HttparseError.newLine
  | 10 :: rest => skip_empty_lines rest
  | bs => PStep.done () bs

/-- Bytes of the literal "HTTP/1.0". -/
def http10bytes : List Nat := strBytes "HTTP/1.0"

/-- Bytes of the literal "HTTP/1.1". -/
def http11bytes : List Nat := strBytes "HTTP/1.1"

/-- `httparse` parse_version: expects the 8 bytes HTTP/1.0 or HTTP/1.1;
fewer bytes that are a prefix of one of these is Partial, anything else is
a Version error. -/
def parse_version (bs : List Nat) : PStep Nat :=
  if isPrefList http11bytes bs then PStep.done 1 (bs.drop 8)
  else if isPrefList http10bytes bs then PStep.done 0 (bs.drop 8)
  else if bs.length < 8 && (isPrefList bs http10bytes || isPrefList bs http11bytes) then PStep.part
  else PStep.err HttparseError.version

/-- Whether a byte is an ASCII digit. -/
def isDigitB (b : Nat) : Bool :=
  48 ≤ b && b ≤ 57

/-- `httparse` parse_code: exactly three ASCII digits; a non-digit is a
Status error; running out of buffer mid-code is Partial. -/
def parse_code : List Nat → PStep Nat
  | [] => PStep.part
  | [d1] => if isDigitB d1 then PStep.part else PStep.err HttparseError.status
  | [d1, d2] =>
    if isDigitB d1 then
      if isDigitB d2 then PStep.part else PStep.err HttparseError.status
    else PStep.err HttparseError.status
  | d1 :: d2 :: d3 :: rest =>
    if isDigitB d1 then
      if isDigitB d2 then
        if isDigitB d3 then
          PStep.done ((d1 - 48) * 100 + (d2 - 48) * 10 + (d3 - 48)) rest
        else PStep.err HttparseError.status
      else PStep.err HttparseError.status
    else PStep.err HttparseError.status

/-- `httparse` parse_reason: reason-phrase bytes are HTAB, SP, visible ASCII
or obs-text; the line ends at CRLF or bare LF; other control bytes are a
Status error. -/
def parse_reason : List Nat → PStep Unit
  | [] => PStep.part
  | 13 :: rest =>
    match rest with
    | 10 :: r => PStep.done () r
    | [] => PStep.part
    | _ => PStep.err HttparseError.status
  | 10 :: rest => PStep.done () rest
  | b :: rest =>
    if b == 9 || b == 32 || (33 ≤ b && b ≤ 126) || 128 ≤ b then parse_reason rest
    else PStep.err HttparseError.status

/-- After the three status digits `httparse` accepts SP + reason, CRLF, or
bare LF; anything else is a Status error. -/
def parse_after_code : List Nat → PStep Unit
  | [] => PStep.part
  | 32 :: rest => parse_reason rest
  | 13 :: rest =>
    match rest with
    | 10 :: r => PStep.done () r
    | [] => PStep.part
    | _ => PStep.err HttparseError.status
  | 10 :: rest => PStep.done () rest
  | _ => PStep.err HttparseError.status

/-- Header-name token bytes per `httparse` (HTTP token characters). -/
def is_header_name_token (b : Nat) : Bool :=
  (48 ≤ b && b ≤ 57) || (65 ≤ b && b ≤ 90) || (97 ≤ b && b ≤ 122) ||
  [33, 35, 36, 37, 38, 39, 42, 43, 45, 46, 94, 95, 96, 124, 126].contains b

/-- Header-value token bytes per `httparse`: HTAB or any byte above 0x1F
except DEL (so arbitrary high bytes are accepted — values need not be
UTF-8). -/
def is_header_value_token (b : Nat) : Bool :=
  b == 9 || (31 < b && b != 127)

/-- Header name: token bytes up to the colon. -/
def parse_header_name : List Nat → List Nat → PStep (List Nat)
  | [], _ => PStep.part
  | 58 :: rest, acc => PStep.done acc.reverse rest
  | b :: rest, acc =>
    if is_header_name_token b then parse_header_name rest (b :: acc)
    else PStep.err HttparseError.headerName

/-- Header value bytes after the first token byte, up to CRLF or LF. -/
def parse_header_value : List Nat → List Nat → PStep (List Nat)
  | [], _ => PStep.part
  | 13 :: rest, acc =>
    match rest with
    | 10 :: r => PStep.done acc.reverse r
    | [] => PStep.part
    | _ => PStep.err HttparseError.headerValue
  | 10 :: rest, acc => PStep.done acc.reverse rest
  | b :: rest, acc =>
    if is_header_value_token b then parse_header_value rest (b :: acc)
    else PStep.err HttparseError.headerValue

/-- After the colon: SP/HTAB are skipped, CRLF or LF gives an empty value,
then value bytes run to the end of the line. -/
def parse_header_after_colon : List Nat → PStep (List Nat)
  | [] => PStep.part
  | 32 :: rest => parse_header_after_colon rest
  | 9 :: rest => parse_header_after_colon rest
  | 13 :: rest =>
    match rest with
    | 10 :: r => PStep.done [] r
    | [] => PStep.part
    | _ => PStep.err HttparseError.headerValue
  | 10 :: rest => PStep.done [] rest
  | b :: rest =>
    if is_header_value_token b then parse_header_value rest [b]
    else PStep.err HttparseError.headerValue

/-- The header loop of `httparse`, bounded by the number of remaining header
slots (the code passes a 32-slot array): a CRLF or LF line ends the block;
starting a header with no slot left is TooManyHeaders. -/
def parse_headers_loop : Nat → List Nat → List Header → HStep
  | _, [], acc => HStep.part acc.reverse
  | _, 13 :: rest, acc =>
    match rest with
    | 10 :: r => HStep.done acc.reverse r
    | [] => HStep.part acc.reverse
    | _ => HStep.err HttparseError.newLine
  | _, 10 :: rest, acc => HStep.done acc.reverse rest
  | remaining, b :: rest, acc =>
    match remaining with
    | 0 => HStep.err HttparseError.tooManyHeaders
    | rem + 1 =>
      if is_header_name_token b then
        match parse_header_name rest [b] with
        | PStep.err e => HStep.err e
        | PStep.part => HStep.part acc.reverse
        | PStep.done nm r2 =>
          match parse_header_after_colon r2 with
          | PStep.err e => HStep.err e
          | PStep.part => HStep.part acc.reverse
          | PStep.done v r3 => parse_headers_loop rem r3 (⟨asciiStr nm, v⟩ :: acc)
      else HStep.err HttparseError.headerName

/-- `httparse::Response::parse` over a byte buffer, with the 32-header bound
used by `Proxy::connect` (`[EMPTY_HEADER; 32]`). -/
def parse_response (bs : List Nat) : ParseOut :=
  match skip_empty_lines bs with
  | PStep.err e => ParseOut.error e
  | PStep.part => ParseOut.incomplete Option.none []
  | PStep.done _ r1 =>
    match parse_version r1 with
    | PStep.err e => ParseOut.error e
    | PStep.part => ParseOut.incomplete Option.none []
    | PStep.done _ r2 =>
      match r2 with
      | [] => ParseOut.incomplete Option.none []
      | 32 :: r3 =>
        match parse_code r3 with
        | PStep.err e => ParseOut.error e
        | PStep.part => ParseOut.incomplete Option.none []
        | PStep.done c r4 =>
          match parse_after_code r4 with
          | PStep.err e => ParseOut.error e
          | PStep.part => ParseOut.incomplete (some c) []
          | PStep.done _ r5 =>
            match parse_headers_loop 32 r5 [] with
            | HStep.err e => ParseOut.error e
            | HStep.part hs => ParseOut.incomplete (some c) hs
            | HStep.done hs _ => ParseOut.complete (some c) hs
      | _ => ParseOut.error HttparseError.version

/-- The headers `Proxy::connect` iterates over for a buffer (empty when the
parse fails, since the `?` returns first). -/
def responseHeaders (bs : List Nat) : List Header :=
  match parse_response bs with
  | ParseOut.error _ => []
  | ParseOut.incomplete _ hs => hs
  | ParseOut.complete _ hs => hs

/-- The 1024-byte zero-initialised read buffer of `Proxy::connect` after the
single `read` call placed `received` at its start. -/
def padBuf (received : List Nat) : List Nat :=
  received.take 1024 ++ List.replicate (1024 - (received.take 1024).length) 0

/-- The 407 branch of `Proxy::connect`: filter headers named exactly
"Proxy-Authenticate", `String::from_utf8(..).unwrap()` each value (the
unwrap panic is `Option.none`), and parse each into an `AuthType`. -/
def collectAuths : List Header → Option (List AuthType)
  | [] => some []
  | hd :: t =>
    if hd.name = "Proxy-Authenticate" then
      match utf8Decode hd.value with
      | Option.none => Option.none
      | some s => (collectAuths t).map (fun l => from_str s :: l)
    else collectAuths t

/-- The offered scheme list in the words of the spec: the ordered
`filterMap` over the response headers, duplicates preserved, each valid
UTF-8 challenge value parsed into a scheme. -/
def offeredSpec (hs : List Header) : List AuthType :=
  hs.filterMap (fun hd =>
    if hd.name = "Proxy-Authenticate" then (utf8Decode hd.value).map from_str
    else Option.none)

/-- The error kinds observable from `Proxy::connect`: `Kind::Proxy` with its
optional scheme list (constructed in `src/proxy.rs`), the conversion of an
`httparse` parse error via `?`, and I/O errors from connect/write/read.
Modelled from the spec: the `result` module itself is not under `src/`; the
spec's taxonomy separates connection, protocol-parse and proxy errors. -/
inductive ErrKind
  | io
  | http (e : HttparseError)
  | proxy (auths : Option (List AuthType))
deriving DecidableEq

/-- Observable outcome of `Proxy::connect`: a panic (Rust `unwrap` /
`unimplemented!`), a returned error with its kind and message, or the
tunnel stream. -/
inductive Outcome
  | panic (msg : String)
  | err (k : ErrKind) (msg : String)
  | tunnel
deriving DecidableEq

/-- Request construction result inside `Proxy::connect`. -/
inductive BuildOut
  | req (r : String)
  | fail (k : ErrKind) (msg : String)
  | panicked (msg : String)
deriving DecidableEq

/-- The environment of one `connect` call: whether the transport connect,
the write and the read succeed, whether `mio::TcpStream::from_stream`
succeeds, and the bytes the single `read` returns. -/
structure Env where
  tcpOk : Bool
  writeOk : Bool
  readOk : Bool
  fromStreamOk : Bool
  response : List Nat
deriving DecidableEq

/-- Transport-level side effects of one `connect` call: whether a transport
connection to the proxy was opened, and the request written to it (if the
write was attempted). -/
structure Trace where
  connected : Bool
  wrote : Option String
deriving DecidableEq

/-- The `match self.auth_type` request construction of `Proxy::connect`
(lines 89-111 of `src/proxy.rs`), including the early `Err` returns and the
`unimplemented!()` panic of the `Digest` arm. -/
def build_connect (cfg : Proxy) (host : String) : BuildOut :=
  match cfg.auth_type with
  | AuthType.none =>
    BuildOut.req ("CONNECT " ++ host ++ " HTTP/1.1\r\nHost: " ++ host ++
      "\r\nConnection: keep-alive\r\n\r\n")
  | AuthType.basic =>
    if has_auth cfg then
      match get_auth cfg with
      | some a =>
        match get_credential AuthType.basic a with
        | some cred =>
          BuildOut.req ("CONNECT " ++ host ++ " HTTP/1.1\r\nHost: " ++ host ++
            "\r\nProxy-Authorization: Basic " ++ cred ++ "\r\nConnection: keep-alive\r\n\r\n")
        | Option.none => BuildOut.panicked "not implemented"
      | Option.none => BuildOut.panicked "called Option::unwrap on a None value"
    else BuildOut.fail (ErrKind.proxy Option.none) "use basic auth, but dont have auth."
  | AuthType.digest => BuildOut.panicked "not implemented"
  | AuthType.unknown _ =>
    BuildOut.fail (ErrKind.proxy Option.none) "unsupport authorization type."

/-- The `match res.code` branch of `Proxy::connect` (lines 124-143). -/
def status_branch (env : Env) (code : Option Nat) (hs : List Header) : Outcome :=
  match code with
  | some c =>
    if 200 ≤ c ∧ c < 300 then
      (if env.fromStreamOk = true then Outcome.tunnel else Outcome.err ErrKind.io "")
    else if c = 401 then Outcome.err (ErrKind.proxy Option.none) "proxy unauthorized."
    else if c = 407 then
      match collectAuths hs with
      | Option.none => Outcome.panic "called Result::unwrap on an Err value"
      | some l => Outcome.err (ErrKind.proxy (some l)) "proxy required authorization."
    else Outcome.err (ErrKind.proxy Option.none) "unexpect responsecode from proxy."
  | Option.none => Outcome.err (ErrKind.proxy Option.none) "unexpect responsecode from proxy."

/-- Read-buffer handling of `Proxy::connect`: parse the padded 1024-byte
buffer; a parse error returns through `?`, otherwise branch on the code. -/
def handle_response (env : Env) : Outcome :=
  match parse_response (padBuf env.response) with
  | ParseOut.error e => Outcome.err (ErrKind.http e) ""
  | ParseOut.incomplete code hs => status_branch env code hs
  | ParseOut.complete code hs => status_branch env code hs

/-- The host:port string of the CONNECT request line:
`url.host_str().unwrap()` (the panic is handled at the call site) and
`url.port_or_known_default().unwrap_or(80)`. -/
def host_string (h : String) (target : Url) : String :=
  h ++ ":" ++ toString (target.port_or_known_default.getD 80)

/-- `Proxy::connect` (lines 81-144 of `src/proxy.rs`), in source order:
open the transport connection to the proxy first, then build the host
string (unwrapping the target host), then build the request per scheme,
then write, read once and branch on the parsed response. -/
def connect (cfg : Proxy) (target : Url) (env : Env) : Outcome × Trace :=
  if env.tcpOk = true then
    match target.host_str with
    | Option.none =>
      (Outcome.panic "called Option::unwrap on a None value", ⟨true, Option.none⟩)
    | some h =>
      match build_connect cfg (host_string h target) with
      | BuildOut.fail k m => (Outcome.err k m, ⟨true, Option.none⟩)
      | BuildOut.panicked m => (Outcome.panic m, ⟨true, Option.none⟩)
      | BuildOut.req r =>
        if env.writeOk = true then
          if env.readOk = true then (handle_response env, ⟨true, some r⟩)
          else (Outcome.err ErrKind.io "", ⟨true, some r⟩)
        else (Outcome.err ErrKind.io "", ⟨true, some r⟩)
  else (Outcome.err ErrKind.io "", ⟨false, Option.none⟩)

/-! Concrete configurations, targets, environments and response buffers used
to instantiate the theorems below. -/

/-- Proxy configured with no authentication. -/
def cfgNone : Proxy := ⟨⟨Option.none, Option.none, "", Option.none, false⟩, AuthType.none⟩

/-- Proxy configured for Basic with a username but no password set. -/
def cfgBasicNoCreds : Proxy :=
  ⟨⟨Option.none, Option.none, "user", Option.none, true⟩, AuthType.basic⟩

/-- Proxy configured for Basic with credentials user:pass. -/
def cfgBasicCreds : Proxy :=
  ⟨⟨Option.none, Option.none, "user", some "pass", true⟩, AuthType.basic⟩

/-- Proxy configured for Digest (with credentials present). -/
def cfgDigest : Proxy := ⟨⟨Option.none, Option.none, "u", some "p", true⟩, AuthType.digest⟩

/-- Target URL with host example.com and port 8080. -/
def tgtA : Url := ⟨some "example.com", some 8080, "", Option.none, false⟩

/-- Target URL with host example.org and no port or known default. -/
def tgtB : Url := ⟨some "example.org", Option.none, "", Option.none, false⟩

/-- Target URL with no host component. -/
def tgtNoHost : Url := ⟨Option.none, Option.none, "", Option.none, false⟩

/-- Target URL with a host but no port and no known default port. -/
def tgtNoPort : Url := ⟨some "h.example", Option.none, "", Option.none, false⟩

/-- Environment where transport connect, write and read all succeed and the
read returns the given bytes. -/
def envOk (resp : List Nat) : Env := ⟨true, true, true, true, resp⟩

/-- The CONNECT request `connect` builds for `cfgNone` towards `tgtA`. -/
def reqA : String :=
  "CONNECT example.com:8080 HTTP/1.1\r\nHost: example.com:8080\r\nConnection: keep-alive\r\n\r\n"

/-- A 500 response. -/
def buf500 : List Nat := strBytes "HTTP/1.1 500 Internal Server Error\r\n\r\n"

/-- A 503 response. -/
def buf503 : List Nat := strBytes "HTTP/1.1 503 Service Unavailable\r\n\r\n"

/-- A 200 response. -/
def buf200 : List Nat := strBytes "HTTP/1.1 200 Connection Established\r\n\r\n"

/-- A 407 response offering Basic and NTLM, in that header order. -/
def buf407ok : List Nat :=
  strBytes "HTTP/1.1 407 Proxy Authentication Required\r\nProxy-Authenticate: Basic\r\nProxy-Authenticate: NTLM\r\n\r\n"

/-- The headers of `buf407ok` as parsed. -/
def hs407 : List Header :=
  [⟨"Proxy-Authenticate", strBytes "Basic"⟩, ⟨"Proxy-Authenticate", strBytes "NTLM"⟩]

/-- A 407 response whose challenge value is the single byte 0xFF, which is
not valid UTF-8 (a valid header value byte for the parser, though). -/
def buf407bad : List Nat :=
  strBytes "HTTP/1.1 407 Proxy Authentication Required\r\nProxy-Authenticate: " ++ [255] ++
    strBytes "\r\n\r\n"

/-- A 407 response with a valid Basic challenge followed by a challenge value
encoding a UTF-16 surrogate (0xED 0xA0 0x80), which Rust rejects as UTF-8. -/
def buf407bad2 : List Nat :=
  strBytes "HTTP/1.1 407 Proxy Authentication Required\r\nProxy-Authenticate: Basic\r\nProxy-Authenticate: " ++
    [237, 160, 128] ++ strBytes "\r\n\r\n"

/-- A 407 response whose challenge header name is lowercased. -/
def buf407lower : List Nat :=
  strBytes "HTTP/1.1 407 Proxy Authentication Required\r\nproxy-authenticate: Basic\r\n\r\n"

/-- The headers of `buf407lower` as parsed. -/
def hs407lower : List Header := [⟨"proxy-authenticate", strBytes "Basic"⟩]

/-- A response truncated in the middle of the status code; the rest of the
1024-byte read buffer stays zero-filled. -/
def bufTrunc : List Nat := strBytes "HTTP/1.1 20"

/-- A response whose valid bytes fill the whole 1024-byte read window and
end in the middle of the status code: 1013 empty lines (LF), then the
truncated status line.  Parsing is incomplete and no status code is set. -/
def bufFull : List Nat := List.replicate 1013 10 ++ strBytes "HTTP/1.1 20"

/-! Shared lemmas about the embedding. -/

/-- When `has_auth` holds, `get_auth` does not panic. -/
theorem get_auth_some (p : Proxy) (h : has_auth p = true) :
    get_auth p = some (p.url.username ++ ":" ++ p.url.password.getD "") := by
  unfold has_auth at h
  rw [Bool.and_eq_true] at h
  unfold get_auth
  rcases hpw : p.url.password with _ | pw
  · rw [hpw] at h
    simp at h
  · rfl

/-- Request construction panics only for the Digest scheme. -/
theorem build_not_panicked (p : Proxy) (host : String)
    (hdg : p.auth_type ≠ AuthType.digest) (m : String) :
    build_connect p host ≠ BuildOut.panicked m := by
  unfold build_connect
  cases hat : p.auth_type with
  | none => simp
  | basic =>
    by_cases ha : has_auth p = true
    · rw [get_auth_some p ha]
      simp [ha, get_credential]
    · simp [ha]
  | digest => exact absurd hat hdg
  | unknown s => simp

/-- When every Proxy-Authenticate value is valid UTF-8, the 407 collection
does not panic and produces exactly the ordered filterMap of the spec. -/
theorem collectAuths_eq_offered (hs : List Header)
    (h : ∀ hd ∈ hs, hd.name = "Proxy-Authenticate" → (utf8Decode hd.value).isSome = true) :
    collectAuths hs = some (offeredSpec hs) := by
  induction hs with
  | nil => rfl
  | cons hd t ih =>
    have iht := ih (fun x hx hnx => h x (List.mem_cons_of_mem _ hx) hnx)
    unfold collectAuths offeredSpec
    unfold offeredSpec at iht
    by_cases hn : hd.name = "Proxy-Authenticate"
    · have hv := h hd (List.mem_cons_self _ _) hn
      rcases hdec : utf8Decode hd.value with _ | s
      · rw [hdec] at hv
        simp at hv
      · simp [hn, hdec, iht, List.filterMap_cons]
    · simp [hn, iht, List.filterMap_cons]

/-- If no header carries the exact name, the offered list is empty. -/
theorem offered_nil (hs : List Header)
    (h : ∀ hd ∈ hs, hd.name ≠ "Proxy-Authenticate") : offeredSpec hs = [] := by
  unfold offeredSpec
  rw [List.filterMap_eq_nil_iff]
  intro hd hm
  simp [h hd hm]

/-- Plumbing: when the transport connect, write and read all succeed and a
request was built, `connect` returns the response branch and records the
opened connection and the written request. -/
theorem connect_response (cfg : Proxy) (target : Url) (env : Env) (h : String) (r : String)
    (htcp : env.tcpOk = true) (hh : target.host_str = some h)
    (hb : build_connect cfg (host_string h target) = BuildOut.req r)
    (hw : env.writeOk = true) (hr : env.readOk = true) :
    connect cfg target env = (handle_response env, ⟨true, some r⟩) := by
  unfold connect
  simp [htcp, hh, hb, hw, hr]

/-- The status branch never panics when the headers it may collect all have
valid UTF-8 values. -/
theorem status_branch_no_panic (env : Env) (code : Option Nat) (hs : List Header) (m : String)
    (hk : ∀ hd ∈ hs, hd.name = "Proxy-Authenticate" → (utf8Decode hd.value).isSome = true) :
    status_branch env code hs ≠ Outcome.panic m := by
  unfold status_branch
  rcases code with _ | c
  · simp
  · by_cases h2 : 200 ≤ c ∧ c < 300
    · by_cases hf : env.fromStreamOk = true <;> simp [h2, hf]
    · by_cases h401 : c = 401
      · simp [h2, h401]
      · by_cases h407 : c = 407
        · simp [h2, h401, h407, collectAuths_eq_offered hs hk]
        · simp [h2, h401, h407]

/-! Claim theorems. -/

/-- Claim C1, counterexample: for a Basic-scheme proxy with no credentials
set, `connect` does return the configuration error without writing any
request bytes, but the trace shows `connected = true`: the transport
connection to the proxy is opened (line 82 of `src/proxy.rs`) before the
credential check, contradicting the claim that no transport connection is
opened and that no network I/O is performed at all. -/
theorem c1_counterexample :
    connect cfgBasicNoCreds tgtA (envOk []) =
      (Outcome.err (ErrKind.proxy Option.none) "use basic auth, but dont have auth.",
        ⟨true, Option.none⟩) := by
  decide

/-- Claim C1 (amended): for every Proxy whose scheme is Basic and whose
credentials are not set, if the transport connect succeeds and the target
has a host, `connect` fails with the configuration error and writes no
request bytes — but only after opening the transport connection to the
proxy (the trace records `connected = true`). -/
theorem c1_config_error_after_connect (cfg : Proxy) (target : Url) (env : Env) (h : String)
    (hat : cfg.auth_type = AuthType.basic) (ha : has_auth cfg = false)
    (htcp : env.tcpOk = true) (hh : target.host_str = some h) :
    connect cfg target env =
      (Outcome.err (ErrKind.proxy Option.none) "use basic auth, but dont have auth.",
        ⟨true, Option.none⟩) := by
  have hb : build_connect cfg (host_string h target) =
      BuildOut.fail (ErrKind.proxy Option.none) "use basic auth, but dont have auth." := by
    unfold build_connect
    simp [hat, ha]
  unfold connect
  simp [htcp, hh, hb]

/-- Claim C1 witness: the amended theorem applied to the Basic-scheme proxy
with a username but no password, against a reachable proxy. -/
theorem c1_config_error_after_connect_witness :
    connect cfgBasicNoCreds tgtB (envOk []) =
      (Outcome.err (ErrKind.proxy Option.none) "use basic auth, but dont have auth.",
        ⟨true, Option.none⟩) :=
  c1_config_error_after_connect cfgBasicNoCreds tgtB (envOk []) "example.org"
    (by decide) (by decide) (by decide) (by decide)

/-- Claim C2, counterexample: for a Digest-scheme proxy, `connect` does not
fail with a typed unsupported-scheme error — it panics (`unimplemented!()`,
line 107 of `src/proxy.rs`), contradicting the claim that it never panics
and returns a typed error.  (It is true that no request bytes are sent:
`wrote = Option.none`.) -/
theorem c2_counterexample :
    connect cfgDigest tgtA (envOk []) =
      (Outcome.panic "not implemented", ⟨true, Option.none⟩) := by
  decide

/-- Claim C2 (amended): for every Proxy whose scheme is Digest, once the
transport connect succeeds and the target has a host, `connect`
deterministically panics with the `unimplemented!` message instead of
returning a typed error; it never sends any request bytes (`wrote` stays
`Option.none`), though the transport connection has already been opened. -/
theorem c2_digest_panics (cfg : Proxy) (target : Url) (env : Env) (h : String)
    (hat : cfg.auth_type = AuthType.digest)
    (htcp : env.tcpOk = true) (hh : target.host_str = some h) :
    connect cfg target env = (Outcome.panic "not implemented", ⟨true, Option.none⟩) := by
  have hb : build_connect cfg (host_string h target) = BuildOut.panicked "not implemented" := by
    unfold build_connect
    simp [hat]
  unfold connect
  simp [htcp, hh, hb]

/-- Claim C2 witness: the amended theorem applied to the concrete
Digest-scheme proxy. -/
theorem c2_digest_panics_witness :
    connect cfgDigest tgtB (envOk []) =
      (Outcome.panic "not implemented", ⟨true, Option.none⟩) :=
  c2_digest_panics cfgDigest tgtB (envOk []) "example.org" (by decide) (by decide) (by decide)

/-- Claim C3, counterexample: a 407 response whose Proxy-Authenticate value
is the byte 0xFF (not valid UTF-8) makes `connect` panic — the
`String::from_utf8(..).unwrap()` on line 135 of `src/proxy.rs` —
contradicting the claim that `connect` never panics on malformed proxy
input. -/
theorem c3_counterexample :
    (connect cfgNone tgtA (envOk buf407bad)).fst =
      Outcome.panic "called Result::unwrap on an Err value" := by
  decide

/-- Claim C3 (amended): `connect` never panics on a malformed proxy
response — malformed bytes, missing headers and truncated input all map to
typed errors — except in exactly one case: a 407 response carrying a
Proxy-Authenticate header whose value is not valid UTF-8.  Formally, for
any scheme other than Digest and a target with a host, if every parsed
Proxy-Authenticate value of the response buffer decodes as UTF-8, the
outcome is never a panic. -/
theorem c3_no_panic_on_valid_challenges (cfg : Proxy) (target : Url) (env : Env)
    (h : String) (m : String)
    (hdg : cfg.auth_type ≠ AuthType.digest)
    (hh : target.host_str = some h)
    (hu : ∀ hd ∈ responseHeaders (padBuf env.response),
      hd.name = "Proxy-Authenticate" → (utf8Decode hd.value).isSome = true) :
    (connect cfg target env).fst ≠ Outcome.panic m := by
  by_cases htcp : env.tcpOk = true
  · rcases hbv : build_connect cfg (host_string h target) with r | ⟨k, msg⟩ | mm
    · by_cases hw : env.writeOk = true
      · by_cases hr : env.readOk = true
        · rw [connect_response cfg target env h r htcp hh hbv hw hr]
          show handle_response env ≠ Outcome.panic m
          unfold handle_response
          rcases hp : parse_response (padBuf env.response) with e | ⟨code, hs⟩ | ⟨code, hs⟩
          · simp
          · have hres : responseHeaders (padBuf env.response) = hs := by
              unfold responseHeaders
              rw [hp]
            exact status_branch_no_panic env code hs m (hres ▸ hu)
          · have hres : responseHeaders (padBuf env.response) = hs := by
              unfold responseHeaders
              rw [hp]
            exact status_branch_no_panic env code hs m (hres ▸ hu)
        · unfold connect
          simp [htcp, hh, hbv, hw, hr]
      · unfold connect
        simp [htcp, hh, hbv, hw]
    · unfold connect
      simp [htcp, hh, hbv]
    · exact absurd hbv (build_not_panicked cfg (host_string h target) hdg mm)
  · unfold connect
    simp [htcp]

/-- Claim C3 witness: the amended theorem applied to a plain 500 response
(no challenge headers at all), showing the no-panic conclusion at a
concrete input. -/
theorem c3_no_panic_on_valid_challenges_witness :
    (connect cfgNone tgtA (envOk buf500)).fst ≠ Outcome.panic "boom" :=
  c3_no_panic_on_valid_challenges cfgNone tgtA (envOk buf500) "example.com" "boom"
    (by decide) (by decide) (by decide)

set_option maxRecDepth 8192 in
/-- Claim C4, counterexample: a response whose status line is truncated by
the 1024-byte read window (1013 empty lines followed by the truncated
status line, filling the buffer exactly) makes the parse come back
incomplete with no status code; `connect` then falls into the catch-all
`_` arm and returns the generic unexpected-status error, not a
protocol-parse error — contradicting the claim that a truncated status
line always yields the protocol-parse kind. -/
theorem c4_counterexample :
    parse_response (padBuf bufFull) = ParseOut.incomplete Option.none [] ∧
    (connect cfgNone tgtA (envOk bufFull)).fst =
      Outcome.err (ErrKind.proxy Option.none) "unexpect responsecode from proxy." := by
  constructor
  · decide
  · decide

/-- Claim C4 (amended): when the parser rejects the buffer (which is what a
status line truncated inside the zero-padded 1024-byte buffer produces,
the padding not being valid HTTP), `connect` returns the protocol-parse
error carried through `?` — no panic, no hang, and not another error
kind.  But when the valid bytes extend to the very end of the read window
so that parsing is merely incomplete with no status code set, `connect`
instead returns the generic unexpected-status error. -/
theorem c4_parse_paths (cfg : Proxy) (target : Url) (env : Env) (h : String) (r : String)
    (e : HttparseError)
    (htcp : env.tcpOk = true) (hw : env.writeOk = true) (hr : env.readOk = true)
    (hh : target.host_str = some h)
    (hb : build_connect cfg (host_string h target) = BuildOut.req r) :
    (parse_response (padBuf env.response) = ParseOut.error e →
      connect cfg target env = (Outcome.err (ErrKind.http e) "", ⟨true, some r⟩)) ∧
    (∀ hs, parse_response (padBuf env.response) = ParseOut.incomplete Option.none hs →
      connect cfg target env =
        (Outcome.err (ErrKind.proxy Option.none) "unexpect responsecode from proxy.",
          ⟨true, some r⟩)) := by
  have hc := connect_response cfg target env h r htcp hh hb hw hr
  constructor
  · intro hp
    rw [hc]
    unfold handle_response
    rw [hp]
  · intro hs hp
    rw [hc]
    unfold handle_response
    rw [hp]
    rfl

set_option maxRecDepth 8192 in
/-- Claim C4 witness: both branches of the amended theorem at concrete
inputs — a status line truncated against the zero padding gives the
protocol-parse (Status) error, and a status line truncated exactly at the
window boundary gives the unexpected-status error. -/
theorem c4_parse_paths_witness :
    connect cfgNone tgtA (envOk bufTrunc) =
      (Outcome.err (ErrKind.http HttparseError.status) "", ⟨true, some reqA⟩) ∧
    connect cfgNone tgtA (envOk bufFull) =
      (Outcome.err (ErrKind.proxy Option.none) "unexpect responsecode from proxy.",
        ⟨true, some reqA⟩) :=
  ⟨(c4_parse_paths cfgNone tgtA (envOk bufTrunc) "example.com" reqA HttparseError.status
      (by decide) (by decide) (by decide) (by decide) (by decide)).1 (by decide),
   (c4_parse_paths cfgNone tgtA (envOk bufFull) "example.com" reqA HttparseError.status
      (by decide) (by decide) (by decide) (by decide) (by decide)).2 [] (by decide)⟩

/-- Claim C5, counterexample: a 500 response and a 503 response produce
exactly the same `connect` result — the error is the fixed
`Kind::Proxy(None)` with the fixed message (line 142 of `src/proxy.rs`),
so the raw numeric status code is not carried back to the caller,
contradicting that part of the claim. -/
theorem c5_counterexample :
    connect cfgNone tgtA (envOk buf500) = connect cfgNone tgtA (envOk buf503) ∧
    (connect cfgNone tgtA (envOk buf500)).fst =
      Outcome.err (ErrKind.proxy Option.none) "unexpect responsecode from proxy." := by
  constructor
  · decide
  · decide

/-- Claim C5 (amended): for every parsed response whose status code is not
in 200-299 and not 401 and not 407, `connect` returns the generic
unexpected-status failure with a fixed kind and message; the raw numeric
status code is not included in the returned error. -/
theorem c5_unexpected_status_fixed_error (cfg : Proxy) (target : Url) (env : Env)
    (h : String) (r : String) (c : Nat) (hs : List Header)
    (htcp : env.tcpOk = true) (hw : env.writeOk = true) (hr : env.readOk = true)
    (hh : target.host_str = some h)
    (hb : build_connect cfg (host_string h target) = BuildOut.req r)
    (hp : parse_response (padBuf env.response) = ParseOut.complete (some c) hs)
    (h2xx : ¬(200 ≤ c ∧ c < 300)) (h401 : c ≠ 401) (h407 : c ≠ 407) :
    connect cfg target env =
      (Outcome.err (ErrKind.proxy Option.none) "unexpect responsecode from proxy.",
        ⟨true, some r⟩) := by
  rw [connect_response cfg target env h r htcp hh hb hw hr]
  unfold handle_response
  rw [hp]
  unfold status_branch
  simp [h2xx, h401, h407]

/-- Claim C5 witness: the amended theorem applied to the 500 response. -/
theorem c5_unexpected_status_fixed_error_witness :
    connect cfgNone tgtA (envOk buf500) =
      (Outcome.err (ErrKind.proxy Option.none) "unexpect responsecode from proxy.",
        ⟨true, some reqA⟩) :=
  c5_unexpected_status_fixed_error cfgNone tgtA (envOk buf500) "example.com" reqA 500 []
    (by decide) (by decide) (by decide) (by decide) (by decide) (by decide)
    (by decide) (by decide) (by decide)

/-- Claim C6, counterexample: a 407 response carrying a valid Basic
challenge followed by a challenge whose value bytes are not valid UTF-8
makes `connect` panic instead of failing with the authorization-required
error, so the claim does not hold for every 407 response. -/
theorem c6_counterexample :
    (connect cfgNone tgtA (envOk buf407bad2)).fst =
      Outcome.panic "called Result::unwrap on an Err value" := by
  decide

/-- Claim C6 (amended): for every 407 response all of whose
Proxy-Authenticate header values are valid UTF-8, `connect` fails with the
authorization-required error carrying the schemes parsed from every
(exact-case) Proxy-Authenticate header of the parsed response, in header
order with duplicates preserved — the ordered `filterMap` given by
`offeredSpec`. -/
theorem c6_offered_list (cfg : Proxy) (target : Url) (env : Env)
    (h : String) (r : String) (hs : List Header)
    (htcp : env.tcpOk = true) (hw : env.writeOk = true) (hr : env.readOk = true)
    (hh : target.host_str = some h)
    (hb : build_connect cfg (host_string h target) = BuildOut.req r)
    (hp : parse_response (padBuf env.response) = ParseOut.complete (some 407) hs)
    (hu : ∀ hd ∈ hs, hd.name = "Proxy-Authenticate" → (utf8Decode hd.value).isSome = true) :
    connect cfg target env =
      (Outcome.err (ErrKind.proxy (some (offeredSpec hs))) "proxy required authorization.",
        ⟨true, some r⟩) := by
  rw [connect_response cfg target env h r htcp hh hb hw hr]
  unfold handle_response
  rw [hp]
  simp [status_branch, collectAuths_eq_offered hs hu]

/-- Claim C6 witness: a 407 carrying `Proxy-Authenticate: Basic` and
`Proxy-Authenticate: NTLM` yields the offered list exactly
`[Basic, Unknown NTLM]`, in header order. -/
theorem c6_offered_list_witness :
    connect cfgNone tgtA (envOk buf407ok) =
      (Outcome.err (ErrKind.proxy (some [AuthType.basic, AuthType.unknown "NTLM"]))
        "proxy required authorization.", ⟨true, some reqA⟩) :=
  (c6_offered_list cfgNone tgtA (envOk buf407ok) "example.com" reqA hs407
    (by decide) (by decide) (by decide) (by decide) (by decide) (by decide)
    (by decide)).trans (by decide)

/-- Claim C7: parsing an AuthScheme from text is a case-insensitive prefix
match — the result is `basic` exactly when the lowercased text starts with
"basic", `digest` exactly when it does not start with "basic" but starts
with "digest", and otherwise the `unknown` variant carrying the original
text verbatim; in particular "basic", "Basic" and "BASIC" all give the
Basic variant, a full Digest challenge gives Digest, and "Negotiate" gives
`unknown "Negotiate"`. -/
theorem c7_scheme_from_text :
    (∀ s : String,
      (from_str s = AuthType.basic ↔ starts_with (lowerStr s) "basic" = true) ∧
      (from_str s = AuthType.digest ↔
        (starts_with (lowerStr s) "basic" = false ∧
          starts_with (lowerStr s) "digest" = true)) ∧
      (from_str s = AuthType.unknown s ↔
        (starts_with (lowerStr s) "basic" = false ∧
          starts_with (lowerStr s) "digest" = false))) ∧
    from_str "basic" = AuthType.basic ∧
    from_str "Basic" = AuthType.basic ∧
    from_str "BASIC" = AuthType.basic ∧
    from_str "digest realm=\"proxy\"" = AuthType.digest ∧
    from_str "Negotiate" = AuthType.unknown "Negotiate" := by
  refine ⟨fun s => ?_, by decide, by decide, by decide, by decide, by decide⟩
  unfold from_str
  by_cases hb : starts_with (lowerStr s) "basic" = true
  · simp [hb]
  · by_cases hd2 : starts_with (lowerStr s) "digest" = true
    · rw [Bool.not_eq_true] at hb
      simp [hb, hd2]
    · rw [Bool.not_eq_true] at hb hd2
      simp [hb, hd2]

/-- Claim C7 witness: the universal part applied to the text "NTLM x",
giving the Unsupported variant verbatim. -/
theorem c7_scheme_from_text_witness : from_str "NTLM x" = AuthType.unknown "NTLM x" :=
  ((c7_scheme_from_text.1 "NTLM x").2.2).mpr (by decide)

/-- Claim C8: for every Proxy with scheme Basic and credentials set, the
request built by `connect` carries a `Proxy-Authorization` header whose
value is exactly `Basic ` followed by the standard base64 encoding of
`username:password`; for scheme None the built request carries no
authorization header.  The concrete conjuncts pin the base64 model to the
standard alphabet and padding ("user:pass" encodes to "dXNlcjpwYXNz",
"a:bc" to "YTpiYw=="), show the None-scheme request contains no
"Proxy-Authorization" substring, and show the full request `connect`
writes for concrete Basic credentials. -/
theorem c8_basic_auth_header (u pw host : String) :
    build_connect ⟨⟨Option.none, Option.none, u, some pw, true⟩, AuthType.basic⟩ host =
      BuildOut.req ("CONNECT " ++ host ++ " HTTP/1.1\r\nHost: " ++ host ++
        "\r\nProxy-Authorization: Basic " ++ encode_base64 (utf8Encode (u ++ ":" ++ pw)) ++
        "\r\nConnection: keep-alive\r\n\r\n") ∧
    build_connect ⟨⟨Option.none, Option.none, u, some pw, true⟩, AuthType.none⟩ host =
      BuildOut.req ("CONNECT " ++ host ++ " HTTP/1.1\r\nHost: " ++ host ++
        "\r\nConnection: keep-alive\r\n\r\n") ∧
    encode_base64 (utf8Encode "user:pass") = "dXNlcjpwYXNz" ∧
    encode_base64 (utf8Encode "a:bc") = "YTpiYw==" ∧
    containsSub reqA.toList "Proxy-Authorization".toList = false ∧
    (connect cfgBasicCreds tgtA (envOk buf200)).snd.wrote =
      some ("CONNECT example.com:8080 HTTP/1.1\r\nHost: example.com:8080\r\nProxy-Authorization: Basic dXNlcjpwYXNz\r\nConnection: keep-alive\r\n\r\n") := by
  refine ⟨?_, by rfl, by decide, by decide, by decide, by decide⟩
  unfold build_connect has_auth get_auth get_credential
  simp

/-- Claim C9: `connect` unwraps `host_str()`, so a target URL with no host
makes it panic instead of returning a typed error (after the transport
connection was already opened); and for a target with a host but no port
and no known default, the port defaults to 80 in the CONNECT request
line. -/
theorem c9_host_unwrap_and_port_default (cfg : Proxy) (target : Url) (env : Env)
    (htcp : env.tcpOk = true) :
    (target.host_str = Option.none →
      connect cfg target env =
        (Outcome.panic "called Option::unwrap on a None value", ⟨true, Option.none⟩)) ∧
    (∀ h, target.host_str = some h → target.port_or_known_default = Option.none →
      cfg.auth_type = AuthType.none →
      (connect cfg target env).snd.wrote =
        some ("CONNECT " ++ (h ++ ":80") ++ " HTTP/1.1\r\nHost: " ++ (h ++ ":80") ++
          "\r\nConnection: keep-alive\r\n\r\n")) := by
  constructor
  · intro hh
    unfold connect
    simp [htcp, hh]
  · intro h hh hport hat
    have hhost : host_string h target = h ++ ":80" := by
      unfold host_string
      rw [hport, String.append_assoc]
      rfl
    have hb : build_connect cfg (host_string h target) =
        BuildOut.req ("CONNECT " ++ (h ++ ":80") ++ " HTTP/1.1\r\nHost: " ++ (h ++ ":80") ++
          "\r\nConnection: keep-alive\r\n\r\n") := by
      unfold build_connect
      rw [hat, hhost]
    unfold connect
    by_cases hw : env.writeOk = true
    · by_cases hr : env.readOk = true
      · simp [htcp, hh, hb, hw, hr]
      · simp [htcp, hh, hb, hw, hr]
    · simp [htcp, hh, hb, hw]

/-- Claim C9 witness: the theorem applied to a hostless target (panic) and
to a target with host but no resolvable port (":80" in the request). -/
theorem c9_host_unwrap_and_port_default_witness :
    connect cfgNone tgtNoHost (envOk []) =
      (Outcome.panic "called Option::unwrap on a None value", ⟨true, Option.none⟩) ∧
    (connect cfgNone tgtNoPort (envOk [])).snd.wrote =
      some ("CONNECT " ++ ("h.example" ++ ":80") ++ " HTTP/1.1\r\nHost: " ++
        ("h.example" ++ ":80") ++ "\r\nConnection: keep-alive\r\n\r\n") :=
  ⟨(c9_host_unwrap_and_port_default cfgNone tgtNoHost (envOk []) (by decide)).1 (by decide),
   (c9_host_unwrap_and_port_default cfgNone tgtNoPort (envOk []) (by decide)).2
     "h.example" (by decide) (by decide) (by decide)⟩

/-- Claim C10: the 407 branch compares header names to "Proxy-Authenticate"
by exact case-sensitive string equality — when no parsed header carries
exactly that name (for example when the proxy lowercases the header name),
`connect` fails with the authorization-required error and an empty offered
list. -/
theorem c10_case_sensitive_challenge (cfg : Proxy) (target : Url) (env : Env)
    (h : String) (r : String) (hs : List Header)
    (htcp : env.tcpOk = true) (hw : env.writeOk = true) (hr : env.readOk = true)
    (hh : target.host_str = some h)
    (hb : build_connect cfg (host_string h target) = BuildOut.req r)
    (hp : parse_response (padBuf env.response) = ParseOut.complete (some 407) hs)
    (hn : ∀ hd ∈ hs, hd.name ≠ "Proxy-Authenticate") :
    connect cfg target env =
      (Outcome.err (ErrKind.proxy (some [])) "proxy required authorization.",
        ⟨true, some r⟩) := by
  have hu : ∀ hd ∈ hs, hd.name = "Proxy-Authenticate" → (utf8Decode hd.value).isSome = true :=
    fun hd hm he => absurd he (hn hd hm)
  rw [connect_response cfg target env h r htcp hh hb hw hr]
  unfold handle_response
  rw [hp]
  simp [status_branch, collectAuths_eq_offered hs hu, offered_nil hs hn]

/-- Claim C10 witness: a 407 whose only challenge header is spelled
`proxy-authenticate` yields the authorization-required error with an empty
offered list. -/
theorem c10_case_sensitive_challenge_witness :
    connect cfgNone tgtA (envOk buf407lower) =
      (Outcome.err (ErrKind.proxy (some [])) "proxy required authorization.",
        ⟨true, some reqA⟩) :=
  c10_case_sensitive_challenge cfgNone tgtA (envOk buf407lower) "example.com" reqA hs407lower
    (by decide) (by decide) (by decide) (by decide) (by decide) (by decide) (by decide)

end WsProxy
